import Mathlib

/-!
Verification of the Hive bundle generator and publishing script
(`hack/bundle-gen.py`) against its design specification.

The script's core logic is embedded shallowly below:

* the channel-index update performed inside `open_pr` (lines 374-407);
* the previous-version lookup `get_previous_version` (lines 166-182);
* the manifest assembly `generate_csv_base` (lines 187-270);
* the channel selection and orchestration of `__main__` (lines 457-531).

Python dictionaries read from YAML are modelled as typed structures, fallible
code as `Except String`, and external I/O outcomes (HTTP fetch, the two
`open_pr` destination publishes) as explicit parameters.
-/

namespace BundleGen

/-- True exactly when a Python snippet at this point would have raised an
uncaught exception or called `sys.exit(1)`. -/
def isFatal {α : Type} : Except String α → Bool
  | .error _ => true
  | .ok _ => false

/-- One entry of the `channels` list of a `hive.package.yaml` document:
a `{name, currentCSV}` pair. -/
structure Channel where
  name : String
  currentCSV : String
deriving DecidableEq, Repr

/-- The descriptor name `hive-operator.v{version}` stamped on channel entries
and CSV documents (bundle-gen.py lines 249, 378, 396). -/
def descriptorName (v : String) : String := "hive-operator.v" ++ v

/-- The unconditional update loop of `open_pr` (lines 375-378): every channel
entry whose name is in `update_channels` has its `currentCSV` replaced with
the new descriptor name.  In the script this loop runs *before* the
precondition checks. -/
def applyChannelUpdate (channels : List Channel) (update_channels : List String)
    (new_version : String) : List Channel :=
  channels.map fun c =>
    if update_channels.contains c.name then
      { c with currentCSV := descriptorName new_version }
    else c

/-- The `found` flag computed by the same loop (lines 374-377): whether any
channel entry's name occurs in `update_channels`. -/
def channelFound (channels : List Channel) (update_channels : List String) : Bool :=
  channels.any fun c => update_channels.contains c.name

/-- The channel-index update of `open_pr` (lines 374-404): run the update
loop, then branch on `prev_version`.  With `prev_version = none` (new
channel) it exits fatally if `found`, exits fatally unless exactly one
target channel was supplied, and otherwise appends a fresh entry; with a
previous version it exits fatally unless `found`. -/
def updateBundle (channels : List Channel) (update_channels : List String)
    (new_version : String) (prev_version : Option String) :
    Except String (List Channel) :=
  let updated := applyChannelUpdate channels update_channels new_version
  let found := channelFound channels update_channels
  match prev_version with
  | none =>
    if found then
      .error "Unexpectedly got prev_version==None but found at least one of the update channels"
    else if update_channels.length ≠ 1 then
      .error "Expected exactly one channel name"
    else
      .ok (updated ++ [⟨update_channels.getD 0 "", descriptorName new_version⟩])
  | some _ =>
    if found then .ok updated
    else .error "did not find a CSV channel to update"

/-- The in-memory `bundle["channels"]` list at the moment `open_pr` exits,
successfully or not: the update loop of lines 375-378 has always already
run by the time any precondition check of lines 380-403 fires. -/
def channelDocAtExit (channels : List Channel) (update_channels : List String)
    (new_version : String) : List Channel :=
  applyChannelUpdate channels update_channels new_version

theorem applyChannelUpdate_of_not_found (channels : List Channel)
    (update_channels : List String) (new_version : String)
    (h : channelFound channels update_channels = false) :
    applyChannelUpdate channels update_channels new_version = channels := by
  induction channels with
  | nil => rfl
  | cons c rest ih =>
    simp only [channelFound, List.any_cons, Bool.or_eq_false_iff] at h
    simp only [applyChannelUpdate, List.map_cons, h.1, Bool.false_eq_true, if_false,
      List.cons.injEq, true_and]
    exact ih (by simpa [channelFound] using h.2)

/-- Fuel-indexed core of Python's `str.replace`: replace every occurrence of
`pat` in the character list.  Each recursive call consumes at least one
character when `pat` is nonempty, so fuel equal to the input length
suffices. -/
def replaceFuel (pat rep : List Char) : Nat → List Char → List Char
  | _, [] => []
  | 0, l => l
  | fuel + 1, c :: rest =>
    if pat.isPrefixOf (c :: rest) then
      rep ++ replaceFuel pat rep fuel (List.drop pat.length (c :: rest))
    else
      c :: replaceFuel pat rep fuel rest

/-- Python's `str.replace(pat, rep)` (all occurrences, left to right).  The
empty-pattern case (where Python interleaves `rep` between characters) is
returned unchanged; the script only ever replaces the nonempty pattern
`"hive-operator.v"`. -/
def pyReplace (s pat rep : String) : String :=
  if pat.isEmpty then s
  else ⟨replaceFuel pat.data rep.data s.data.length s.data⟩

/-- The parsed `hive.package.yaml` fetched from
`COMMUNITY_OPERATORS_HIVE_PKG_URL`.  `channels = none` models a document in
which the `channels` key is missing or not a list: iterating it raises
inside the `try` block of `get_previous_version`. -/
structure PkgDoc where
  channels : Option (List Channel)
deriving DecidableEq, Repr

/-- Model of `get_previous_version` (bundle-gen.py lines 166-182).  `fetch` is the
combined outcome of `http.request` plus `yaml.load`, both of which run
*outside* the `try` block, so their failure propagates; a failure while
iterating `channels` (modelled by `channels = none`) is caught, logged and
re-raised, hence also fatal.  Only a well-formed document without the
requested channel yields `none` (no previous version). -/
def get_previous_version (fetch : Except String PkgDoc) (channel_name : String) :
    Except String (Option String) :=
  match fetch with
  | .error e => .error e
  | .ok doc =>
    match doc.channels with
    | none => .error "Unable to determine previous hive version"
    | some cs =>
      match cs.find? (fun c => c.name == channel_name) with
      | some c => .ok (some (pyReplace c.currentCSV "hive-operator.v" ""))
      | none => .ok none

/-- The channel used by `__main__` when looking for stuff in the package
yaml file (lines 476-478): the default channel when it is among the update
channels, else `update_channels[0]`. -/
def lookup_channel (channel_default : String) (update_channels : List String) : String :=
  if update_channels.contains channel_default then channel_default
  else update_channels.getD 0 ""

/-- Which side-effecting stages of `__main__` ran during one invocation. -/
structure MainEffects where
  builtImage : Bool
  generatedCSV : Bool
  generatedPackage : Bool
  firstDestAttempted : Bool
  secondDestAttempted : Bool
deriving DecidableEq, Repr

/-- No stage has run. -/
def noEffects : MainEffects := ⟨false, false, false, false, false⟩

/-- The tail of `__main__` (lines 475-527), from channel selection onward.
`fetch` is the outcome of the remote package fetch; `dest1` and `dest2` are
the outcomes of the two sequential `open_pr` calls (community-operators-prod
then community-operators), whose uncaught exceptions abort the whole run.
Python's `hive_version == prev_version` with `prev_version : Optional[str]`
holds exactly when `prev_version` is `Some hive_version`.  Returns the
overall outcome together with which stages were reached. -/
def main_run (channel_default hive_version : String) (update_channels : List String)
    (fetch : Except String PkgDoc) (dest1 dest2 : Except String Unit) :
    Except String Unit × MainEffects :=
  let channel := lookup_channel channel_default update_channels
  match get_previous_version fetch channel with
  | .error e => (.error e, noEffects)
  | .ok prev_version =>
    if prev_version = some hive_version then
      (.error ("Version " ++ hive_version ++ " already exists upstream"), noEffects)
    else
      match dest1 with
      | .error e => (.error e, ⟨true, true, true, true, false⟩)
      | .ok _ =>
        match dest2 with
        | .error e => (.error e, ⟨true, true, true, true, true⟩)
        | .ok _ => (.ok (), ⟨true, true, true, true, true⟩)

/-! ### Manifest assembly (`generate_csv_base`, lines 187-270) -/

/-- Field `spec.versions[i].schema.openAPIV3Schema` of a CRD document. -/
structure OpenAPIV3Schema where
  description : String
deriving DecidableEq, Repr

/-- Field `spec.versions[i].schema` of a CRD document. -/
structure CRDSchemaHolder where
  openAPIV3Schema : OpenAPIV3Schema
deriving DecidableEq, Repr

/-- One element of `spec.versions` of a CRD document. -/
structure CRDVersionEntry where
  name : String
  schema : CRDSchemaHolder
deriving DecidableEq, Repr

/-- Field `spec.names` of a CRD document. -/
structure CRDNames where
  kind : String
deriving DecidableEq, Repr

/-- Field `spec` of a CRD document. -/
structure CRDSpec where
  names : CRDNames
  versions : List CRDVersionEntry
deriving DecidableEq, Repr

/-- Field `metadata` of a CRD document. -/
structure CRDMetadata where
  name : String
deriving DecidableEq, Repr

/-- A parsed CRD yaml document from `config/crds`. -/
structure CRDDoc where
  metadata : CRDMetadata
  spec : CRDSpec
deriving DecidableEq, Repr

/-- One entry of the owned-CRDs list built by `generate_csv_base`
(lines 213-223). -/
structure OwnedCRD where
  description : String
  displayName : String
  kind : String
  name : String
  version : String
deriving DecidableEq, Repr

/-- One entry of `os.listdir(crds_dir)`: the file name, whether
`os.path.isfile` holds for it, and — when it is a file — its parsed yaml
content. -/
structure DirEntry where
  name : String
  isFile : Bool
  doc : CRDDoc
deriving DecidableEq, Repr

/-- Lexicographic code-point comparison of character lists, the order Python
uses on `str`.  Stated on `List Char` so that it evaluates structurally. -/
def charListLe : List Char → List Char → Bool
  | [], _ => true
  | _ :: _, [] => false
  | a :: as, b :: bs =>
    if a < b then true
    else if b < a then false
    else charListLe as bs

/-- Filename comparison between directory entries. -/
def entryLe (a b : DirEntry) : Bool := charListLe a.name.data b.name.data

/-- Insert one entry into an already sorted run. -/
def insertEntry (e : DirEntry) : List DirEntry → List DirEntry
  | [] => [e]
  | x :: xs => if entryLe e x then e :: x :: xs else x :: insertEntry e xs

/-- Model of `sorted(os.listdir(crds_dir))` (line 204): the directory entries in
lexicographic filename order. -/
def sortEntries : List DirEntry → List DirEntry
  | [] => []
  | e :: rest => insertEntry e (sortEntries rest)

/-- Building one owned-CRDs entry from a CRD document (lines 213-223).
Indexing `spec.versions[0]` raises `IndexError` on an empty list, which
propagates out of `generate_csv_base`. -/
def crdToOwned (crd : CRDDoc) : Except String OwnedCRD :=
  match crd.spec.versions with
  | [] => .error "IndexError: list index out of range"
  | v :: _ =>
    .ok
      { description := v.schema.openAPIV3Schema.description
        displayName := crd.spec.names.kind
        kind := crd.spec.names.kind
        name := crd.metadata.name
        version := v.name }

/-- The copy loop of lines 204-223 restricted to its owned-CRDs output:
walk the (already sorted) entries in order, skip entries that are not
regular files, and append one owned entry per file.  The first failing
document aborts the run. -/
def collectOwned : List DirEntry → Except String (List OwnedCRD)
  | [] => .ok []
  | e :: rest =>
    if e.isFile then
      match crdToOwned e.doc with
      | .error msg => .error msg
      | .ok o =>
        match collectOwned rest with
        | .error msg => .error msg
        | .ok os => .ok (o :: os)
    else collectOwned rest

/-- One element of `spec.install.spec.deployments[0].spec.template.spec.containers`. -/
structure ContainerSpec where
  image : String
deriving DecidableEq, Repr

/-- The pod spec inside a Deployment's template. -/
structure PodSpec where
  containers : List ContainerSpec
deriving DecidableEq, Repr

/-- Field `spec.template` of a Deployment. -/
structure PodTemplate where
  spec : PodSpec
deriving DecidableEq, Repr

/-- The `spec` field of a Deployment document; `operator_deployment["spec"]`
on line 244. -/
structure DeploymentSpec where
  template : PodTemplate
deriving DecidableEq, Repr

/-- One document of the multi-document `operator_deployment.yaml` file; the
script uses only document index 1 (line 243) and only its `spec`. -/
structure OperatorDoc where
  spec : DeploymentSpec
deriving DecidableEq, Repr

/-- One `{rules, serviceAccountName}` entry of
`spec.install.spec.clusterPermissions` (lines 235-237).  The rule payload is
never inspected by the script, so each rule is kept as an uninterpreted
string. -/
structure PermissionEntry where
  rules : List String
  serviceAccountName : String
deriving DecidableEq, Repr

/-- The fields of the ClusterServiceVersion document that
`generate_csv_base` reads or writes, named after their yaml paths. -/
structure CSVDoc where
  metadata_name : String
  annotations_containerImage : String
  annotations_createdAt : String
  spec_version : String
  spec_replaces : Option String
  owned : List OwnedCRD
  clusterPermissions : List PermissionEntry
  deployment_spec : DeploymentSpec
deriving DecidableEq, Repr

/-- Modelled from the spec: the CSV template file
`config/templates/hive-csv-template.yaml` is part of this repository but not
under `src/`.  Per the design spec (§4.3 step 6) the assembled descriptor
omits the `replaces` field entirely when there is no previous version, so
the template carries no `replaces` field; its remaining fields are
placeholders that `generate_csv_base` overwrites. -/
def hiveCsvTemplate : CSVDoc :=
  { metadata_name := ""
    annotations_containerImage := ""
    annotations_createdAt := ""
    spec_version := ""
    spec_replaces := none
    owned := []
    clusterPermissions := []
    deployment_spec := ⟨⟨⟨[]⟩⟩⟩ }

/-- Constant `OPERATORHUB_HIVE_IMAGE_DEFAULT` (line 25). -/
def OPERATORHUB_HIVE_IMAGE_DEFAULT : String := "quay.io/openshift-hive/hive"

/-- The pure core of `generate_csv_base` (lines 187-270): list the CRD
directory sorted, build the owned-CRDs list, load the template, replace its
owned list, set `clusterPermissions` to the single operator-role entry,
substitute document 1 of the deployment file as the deployment spec, stamp
the identity fields (`replaces` only when a previous version exists), and
inject the image reference into the (new) first container and the
`containerImage` annotation.  `now` is the wall-clock `createdAt` string.
File writes are outside the model. -/
def generate_csv_base (csvTemplate : CSVDoc) (entries : List DirEntry)
    (roleRules : List String) (deployDocs : List OperatorDoc)
    (version : String) (prev_version : Option String) (now : String) :
    Except String CSVDoc :=
  match collectOwned (sortEntries entries) with
  | .error e => .error e
  | .ok owned =>
    match deployDocs with
    | [] => .error "IndexError: operator components"
    | [_] => .error "IndexError: operator components"
    | _ :: dep :: _ =>
      let image_ref := OPERATORHUB_HIVE_IMAGE_DEFAULT ++ ":v" ++ version
      match dep.spec.template.spec.containers with
      | [] => .error "IndexError: containers"
      | c :: cs =>
        .ok
          { csvTemplate with
            owned := owned
            clusterPermissions := [⟨roleRules, "hive-operator"⟩]
            metadata_name := descriptorName version
            spec_version := version
            spec_replaces :=
              match prev_version with
              | some pv => some (descriptorName pv)
              | none => csvTemplate.spec_replaces
            deployment_spec := ⟨⟨⟨{ c with image := image_ref } :: cs⟩⟩⟩
            annotations_containerImage := image_ref
            annotations_createdAt := now }

/-! ### Theorems about the channel-index update -/

theorem updateBundle_ok_out (channels : List Channel) (update_channels : List String)
    (nv : String) (pv : Option String) (out : List Channel)
    (h : updateBundle channels update_channels nv pv = .ok out) :
    (∃ e, out = applyChannelUpdate channels update_channels nv ++ [e]) ∨
      out = applyChannelUpdate channels update_channels nv := by
  cases pv with
  | none =>
    by_cases hf : channelFound channels update_channels = true
    · simp [updateBundle, hf] at h
    · by_cases hl : update_channels.length = 1
      · simp [updateBundle, hf, hl] at h
        exact .inl ⟨_, h.symm⟩
      · simp [updateBundle, hf, hl] at h
  | some p =>
    by_cases hf : channelFound channels update_channels = true
    · simp [updateBundle, hf] at h
      exact .inr h.symm
    · simp [updateBundle, hf] at h

/-- Claim C2: with no previous version (new-channel creation), the update
fails fatally unless exactly one target channel is supplied, fails fatally
when some channel entry with a targeted name already exists, and — when both
preconditions hold — returns the original channel list with exactly one new
`{name, currentCSV}` entry appended. -/
theorem updateBundle_new_channel (channels : List Channel)
    (update_channels : List String) (nv : String) :
    (update_channels.length ≠ 1 →
      isFatal (updateBundle channels update_channels nv none) = true) ∧
    (channelFound channels update_channels = true →
      isFatal (updateBundle channels update_channels nv none) = true) ∧
    (update_channels.length = 1 → channelFound channels update_channels = false →
      updateBundle channels update_channels nv none =
        .ok (channels ++ [⟨update_channels.getD 0 "", descriptorName nv⟩])) := by
  refine ⟨?_, ?_, ?_⟩
  · intro hl
    by_cases hf : channelFound channels update_channels = true
    · simp [updateBundle, hf, isFatal]
    · simp [updateBundle, hf, hl, isFatal]
  · intro hf
    simp [updateBundle, hf, isFatal]
  · intro hl hf
    simp [updateBundle, hf, hl, applyChannelUpdate_of_not_found _ _ _ hf]

/-- Witness for `updateBundle_new_channel`: creating channel `beta` in an
index holding only `alpha` appends exactly the one new entry. -/
theorem updateBundle_new_channel_w :
    updateBundle [⟨"alpha", "hive-operator.v1"⟩] ["beta"] "2" none =
      .ok [⟨"alpha", "hive-operator.v1"⟩, ⟨"beta", descriptorName "2"⟩] :=
  (updateBundle_new_channel [⟨"alpha", "hive-operator.v1"⟩] ["beta"] "2").2.2
    (by decide) (by decide)

/-- Claim C3: with a previous version (existing-channel update), the update
fails fatally when no channel entry has a targeted name; otherwise it
succeeds, preserves the number of entries, and every entry whose name is in
the target set has its `currentCSV` replaced by the new descriptor name. -/
theorem updateBundle_existing_channel (channels : List Channel)
    (update_channels : List String) (nv pv : String) :
    (channelFound channels update_channels = false →
      isFatal (updateBundle channels update_channels nv (some pv)) = true) ∧
    (channelFound channels update_channels = true →
      ∃ out, updateBundle channels update_channels nv (some pv) = .ok out ∧
        out.length = channels.length ∧
        ∀ (i : Nat) (c : Channel), channels[i]? = some c → update_channels.contains c.name = true →
          out[i]? = some ⟨c.name, descriptorName nv⟩) := by
  constructor
  · intro hf
    simp [updateBundle, hf, isFatal]
  · intro hf
    refine ⟨applyChannelUpdate channels update_channels nv, by simp [updateBundle, hf],
      by simp [applyChannelUpdate], ?_⟩
    intro i c hc hmem
    have hmem2 : c.name ∈ update_channels := by simpa using hmem
    simp [applyChannelUpdate, List.getElem?_map, hc, hmem2]

/-- Witness for `updateBundle_existing_channel`: updating channel `alpha`
rewrites its `currentCSV` in place. -/
theorem updateBundle_existing_channel_w :
    ∃ out, updateBundle [⟨"alpha", "hive-operator.v1"⟩] ["alpha"] "2" (some "1") = .ok out ∧
      out.length = 1 ∧
      ∀ (i : Nat) (c : Channel), ([⟨"alpha", "hive-operator.v1"⟩] : List Channel)[i]? = some c →
        (["alpha"] : List String).contains c.name = true →
        out[i]? = some ⟨c.name, descriptorName "2"⟩ :=
  (updateBundle_existing_channel [⟨"alpha", "hive-operator.v1"⟩] ["alpha"] "2" "1").2
    (by decide)

/-- Claim C4: whenever the channel-index update succeeds — in either the
new-channel or the existing-channel case — every channel entry whose name is
not in the target set is unchanged at its original position. -/
theorem updateBundle_frame (channels : List Channel) (update_channels : List String)
    (nv : String) (pv : Option String) (out : List Channel)
    (h : updateBundle channels update_channels nv pv = .ok out) :
    ∀ (i : Nat) (c : Channel), channels[i]? = some c → update_channels.contains c.name = false →
      out[i]? = some c := by
  intro i c hc hmem
  have hi : i < channels.length := by
    rcases List.getElem?_eq_some.mp hc with ⟨hlt, _⟩
    exact hlt
  have hmap : (applyChannelUpdate channels update_channels nv)[i]? = some c := by
    have hmem2 : c.name ∉ update_channels := by simpa using hmem
    simp [applyChannelUpdate, List.getElem?_map, hc, hmem2]
  rcases updateBundle_ok_out channels update_channels nv pv out h with ⟨e, he⟩ | he
  · subst he
    rw [List.getElem?_append]
    simp only [applyChannelUpdate, List.length_map, hi, if_true]
    exact hmap
  · subst he
    exact hmap

/-- Witness for `updateBundle_frame`: updating channel `beta` leaves the
`alpha` entry untouched at index 0. -/
theorem updateBundle_frame_w :
    ([⟨"alpha", "hive-operator.v1"⟩, ⟨"beta", descriptorName "2"⟩] : List Channel)[0]? =
      some ⟨"alpha", "hive-operator.v1"⟩ :=
  updateBundle_frame [⟨"alpha", "hive-operator.v1"⟩, ⟨"beta", "hive-operator.v1"⟩]
    ["beta"] "2" (some "1")
    [⟨"alpha", "hive-operator.v1"⟩, ⟨"beta", descriptorName "2"⟩] (by rfl)
    0 ⟨"alpha", "hive-operator.v1"⟩ (by rfl) (by decide)

/-- Claim C5 counterexample: in new-channel mode with a target channel that
already exists, `open_pr` does exit fatally, but the in-memory channel list
at that point is *not* the original one — the update loop of lines 375-378
already rewrote the matching entry before the check on line 382 fired. -/
theorem updateBundle_doc_modified_cx :
    isFatal (updateBundle [⟨"alpha", "hive-operator.v1"⟩] ["alpha"] "2" none) = true ∧
    channelDocAtExit [⟨"alpha", "hive-operator.v1"⟩] ["alpha"] "2" ≠
      [⟨"alpha", "hive-operator.v1"⟩] := by
  constructor
  · rfl
  · intro h
    have : ("hive-operator.v2" : String) = "hive-operator.v1" :=
      congrArg Channel.currentCSV (List.head_eq_of_cons_eq h)
    simp at this

/-- Claim C5 as amended: a precondition failure that found no targeted
channel entry (channel-not-found in existing mode; the ambiguous-target
check in new mode, which is only reachable when nothing was found) leaves
the in-memory document unmodified, whereas the channel-already-exists
failure of new mode fires only after every targeted entry has already been
rewritten in memory. -/
theorem updateBundle_fail_doc (channels : List Channel) (update_channels : List String)
    (nv : String) :
    (channelFound channels update_channels = false →
      channelDocAtExit channels update_channels nv = channels) ∧
    (channelFound channels update_channels = true →
      isFatal (updateBundle channels update_channels nv none) = true ∧
      ∀ (i : Nat) (c : Channel), channels[i]? = some c → update_channels.contains c.name = true →
        (channelDocAtExit channels update_channels nv)[i]? =
          some ⟨c.name, descriptorName nv⟩) := by
  constructor
  · intro hf
    exact applyChannelUpdate_of_not_found _ _ _ hf
  · intro hf
    refine ⟨by simp [updateBundle, hf, isFatal], ?_⟩
    intro i c hc hmem
    have hmem2 : c.name ∈ update_channels := by simpa using hmem
    simp [channelDocAtExit, applyChannelUpdate, List.getElem?_map, hc, hmem2]

/-- Witness for `updateBundle_fail_doc`: the not-found case leaves the
document unchanged. -/
theorem updateBundle_fail_doc_w :
    channelDocAtExit [⟨"alpha", "hive-operator.v1"⟩] ["beta"] "2" =
      [⟨"alpha", "hive-operator.v1"⟩] :=
  (updateBundle_fail_doc [⟨"alpha", "hive-operator.v1"⟩] ["beta"] "2").1 (by decide)

/-! ### Theorems about the previous-version lookup -/

/-- Claim C6 counterexample: when the remote fetch fails, the lookup does
*not* degrade to "no previous version" — `http.request` and `yaml.load` run
outside the `try` block of `get_previous_version`, so the failure propagates
fatally instead of yielding an absent result. -/
theorem get_previous_version_fatal_cx :
    get_previous_version (.error "connection refused") "alpha" ≠ .ok none ∧
    isFatal (get_previous_version (.error "connection refused") "alpha") = true := by
  constructor
  · intro h
    exact Except.noConfusion h
  · rfl

/-- Claim C6 as amended: the lookup yields an absent previous version only
when the fetched document is well-formed and its channel list lacks the
requested name; an unreachable remote or a document whose channel list
cannot be iterated is fatal (the former propagates uncaught, the latter is
logged and re-raised), and a found channel yields its version with the
`hive-operator.v` prefix stripped. -/
theorem get_previous_version_outcomes (fetch : Except String PkgDoc)
    (channel_name : String) :
    (∀ e, fetch = .error e → get_previous_version fetch channel_name = .error e) ∧
    (∀ doc, fetch = .ok doc → doc.channels = none →
      isFatal (get_previous_version fetch channel_name) = true) ∧
    (∀ doc cs, fetch = .ok doc → doc.channels = some cs →
      (cs.find? (fun c => c.name == channel_name) = none →
        get_previous_version fetch channel_name = .ok none) ∧
      (∀ c, cs.find? (fun c => c.name == channel_name) = some c →
        get_previous_version fetch channel_name =
          .ok (some (pyReplace c.currentCSV "hive-operator.v" "")))) := by
  refine ⟨?_, ?_, ?_⟩
  · intro e he
    simp [get_previous_version, he]
  · intro doc hdoc hch
    simp [get_previous_version, hdoc, hch, isFatal]
  · intro doc cs hdoc hch
    constructor
    · intro hfind
      simp [get_previous_version, hdoc, hch, hfind]
    · intro c hfind
      simp [get_previous_version, hdoc, hch, hfind]

/-- Witness for `get_previous_version_outcomes`: a well-formed document
without the requested channel yields an absent previous version, and one
with it yields the stripped version string. -/
theorem get_previous_version_outcomes_w :
    get_previous_version (.ok ⟨some [⟨"beta", "hive-operator.v1.2.3"⟩]⟩) "alpha" =
      .ok none ∧
    get_previous_version (.ok ⟨some [⟨"alpha", "hive-operator.v1.2.3"⟩]⟩) "alpha" =
      .ok (some (pyReplace "hive-operator.v1.2.3" "hive-operator.v" "")) :=
  ⟨((get_previous_version_outcomes (.ok ⟨some [⟨"beta", "hive-operator.v1.2.3"⟩]⟩)
      "alpha").2.2 _ _ rfl rfl).1 (by rfl),
   ((get_previous_version_outcomes (.ok ⟨some [⟨"alpha", "hive-operator.v1.2.3"⟩]⟩)
      "alpha").2.2 _ _ rfl rfl).2 _ (by rfl)⟩

/-! ### Theorems about manifest assembly -/

theorem charListLe_iff : ∀ a b : List Char, charListLe a b = true ↔ a ≤ b
  | [], b => by
    simp only [charListLe, true_iff]
    exact List.nil_le
  | x :: xs, [] => by
    constructor
    · intro h
      exact absurd h (by simp [charListLe])
    · intro h
      exact absurd (List.nil_lt_cons x xs) (not_lt.mpr h)
  | x :: xs, y :: ys => by
    rcases lt_trichotomy x y with hxy | heq | hyx
    · simp only [charListLe, hxy, if_true, true_iff]
      exact le_of_lt (List.Lex.rel hxy)
    · subst heq
      simp only [charListLe, lt_irrefl, if_false, charListLe_iff xs ys]
      constructor
      · intro hle
        rw [← not_lt]
        intro hlt
        rcases hlt with _ | h
        · exact absurd hle (by simpa using h)
        · exact lt_irrefl x (by assumption)
      · intro hle
        rw [← not_lt] at hle ⊢
        intro hlt
        exact hle (List.Lex.cons hlt)
    · have hf : charListLe (x :: xs) (y :: ys) = false := by
        simp [charListLe, asymm hyx, hyx]
      rw [hf]
      constructor
      · intro h
        exact absurd h (by simp)
      · intro h
        exact absurd (show (y :: ys) < (x :: xs) from List.Lex.rel hyx) (not_lt.mpr h)

theorem entryLe_iff (a b : DirEntry) : entryLe a b = true ↔ a.name ≤ b.name := by
  rw [entryLe, charListLe_iff]
  exact Iff.symm String.le_iff_toList_le

theorem insertEntry_perm (e : DirEntry) (l : List DirEntry) :
    (insertEntry e l).Perm (e :: l) := by
  induction l with
  | nil => exact List.Perm.refl _
  | cons x xs ih =>
    by_cases h : entryLe e x = true
    · simp [insertEntry, h]
    · simp only [insertEntry, h, if_false]
      exact (ih.cons x).trans (List.Perm.swap e x xs)

theorem sortEntries_perm (l : List DirEntry) : (sortEntries l).Perm l := by
  induction l with
  | nil => exact List.Perm.refl _
  | cons e rest ih =>
    exact (insertEntry_perm e (sortEntries rest)).trans (ih.cons e)

theorem insertEntry_pairwise (e : DirEntry) (l : List DirEntry)
    (h : l.Pairwise fun a b => a.name ≤ b.name) :
    (insertEntry e l).Pairwise fun a b => a.name ≤ b.name := by
  induction l with
  | nil => simp [insertEntry]
  | cons x xs ih =>
    rcases List.pairwise_cons.mp h with ⟨hx, hxs⟩
    by_cases he : entryLe e x = true
    · simp only [insertEntry, he, if_true]
      refine List.pairwise_cons.mpr ⟨?_, h⟩
      intro b hb
      rcases List.mem_cons.mp hb with rfl | hb
      · exact (entryLe_iff e b).mp he
      · exact le_trans ((entryLe_iff e x).mp he) (hx b hb)
    · simp only [insertEntry, he, if_false]
      refine List.pairwise_cons.mpr ⟨?_, ih hxs⟩
      intro b hb
      rcases List.mem_cons.mp ((insertEntry_perm e xs).mem_iff.mp hb) with rfl | hb
      · exact le_of_not_le fun hc => he ((entryLe_iff b x).mpr hc)
      · exact hx b hb

theorem sortEntries_pairwise (l : List DirEntry) :
    (sortEntries l).Pairwise fun a b => a.name ≤ b.name := by
  induction l with
  | nil => simp [sortEntries]
  | cons e rest ih => exact insertEntry_pairwise e (sortEntries rest) ih

theorem collectOwned_ok (l : List DirEntry) (os : List OwnedCRD)
    (h : collectOwned l = .ok os) :
    List.Forall₂ (fun e o => crdToOwned e.doc = .ok o)
      (l.filter fun e => e.isFile) os := by
  induction l generalizing os with
  | nil =>
    simp only [collectOwned, Except.ok.injEq] at h
    subst h
    simp
  | cons e rest ih =>
    by_cases hf : e.isFile = true
    · simp only [collectOwned, hf, if_true] at h
      cases hcrd : crdToOwned e.doc with
      | error m => rw [hcrd] at h; exact absurd h (by simp)
      | ok o =>
        rw [hcrd] at h
        cases hrest : collectOwned rest with
        | error m => rw [hrest] at h; exact absurd h (by simp)
        | ok os2 =>
          rw [hrest] at h
          simp only [Except.ok.injEq] at h
          subst h
          rw [List.filter_cons_of_pos hf]
          exact List.Forall₂.cons hcrd (ih _ hrest)
    · simp only [collectOwned, hf, if_false] at h
      rw [List.filter_cons_of_neg hf]
      exact ih _ h

theorem generate_csv_base_ok (tmpl : CSVDoc) (entries : List DirEntry)
    (roleRules : List String) (deployDocs : List OperatorDoc)
    (v : String) (pv : Option String) (now : String) (csv : CSVDoc)
    (h : generate_csv_base tmpl entries roleRules deployDocs v pv now = .ok csv) :
    collectOwned (sortEntries entries) = .ok csv.owned ∧
    csv.spec_replaces =
      (match pv with
       | some p => some (descriptorName p)
       | none => tmpl.spec_replaces) := by
  unfold generate_csv_base at h
  split at h
  · exact absurd h (by simp)
  next owned hc =>
    split at h
    · exact absurd h (by simp)
    · exact absurd h (by simp)
    next dep rest =>
      split at h
      · exact absurd h (by simp)
      next c cs hcont =>
        simp only [Except.ok.injEq] at h
        subst h
        exact ⟨hc, by cases pv <;> rfl⟩

/-- Claim C7: the assembled descriptor carries no `replaces` field when the
previous version is absent, and carries exactly
`hive-operator.v{previousVersion}` when it is present. -/
theorem generate_csv_replaces_field (entries : List DirEntry)
    (roleRules : List String) (deployDocs : List OperatorDoc)
    (v : String) (pv : Option String) (now : String) (csv : CSVDoc)
    (h : generate_csv_base hiveCsvTemplate entries roleRules deployDocs v pv now =
      .ok csv) :
    csv.spec_replaces = pv.map fun p => descriptorName p := by
  have hrep := (generate_csv_base_ok hiveCsvTemplate entries roleRules deployDocs
    v pv now csv h).2
  cases pv with
  | none => simpa [hiveCsvTemplate] using hrep
  | some p => simpa using hrep

/-- Claim C8: whenever assembly succeeds, the owned-CRDs list has exactly
one entry per regular file of the CRD directory, and its entries are in
bijective, order-preserving correspondence with the file entries of the
lexicographically sorted directory listing. -/
theorem generate_csv_owned_order (tmpl : CSVDoc) (entries : List DirEntry)
    (roleRules : List String) (deployDocs : List OperatorDoc)
    (v : String) (pv : Option String) (now : String) (csv : CSVDoc)
    (h : generate_csv_base tmpl entries roleRules deployDocs v pv now = .ok csv) :
    csv.owned.length = (entries.filter fun e => e.isFile).length ∧
    (sortEntries entries).Perm entries ∧
    List.Pairwise (fun a b : DirEntry => a.name ≤ b.name) (sortEntries entries) ∧
    List.Forall₂ (fun e o => crdToOwned e.doc = .ok o)
      ((sortEntries entries).filter fun e => e.isFile) csv.owned := by
  have hc := (generate_csv_base_ok tmpl entries roleRules deployDocs
    v pv now csv h).1
  have hf2 := collectOwned_ok _ _ hc
  have hperm : (sortEntries entries).Perm entries := sortEntries_perm entries
  refine ⟨?_, hperm, sortEntries_pairwise entries, hf2⟩
  calc csv.owned.length
      = ((sortEntries entries).filter fun e => e.isFile).length :=
        (List.Forall₂.length_eq hf2).symm
    _ = (entries.filter fun e => e.isFile).length :=
        (hperm.filter _).length_eq

/-- A two-document deployment file whose second document has one container;
the smallest input on which `generate_csv_base` succeeds. -/
def sampleDeployDocs : List OperatorDoc := [⟨⟨⟨⟨[]⟩⟩⟩⟩, ⟨⟨⟨⟨[⟨"x"⟩]⟩⟩⟩⟩]

/-- The descriptor assembled from no CRD files at version `1` replacing
version `0`. -/
def sampleCsvReplacing : CSVDoc :=
  { metadata_name := "hive-operator.v1"
    annotations_containerImage := "quay.io/openshift-hive/hive:v1"
    annotations_createdAt := "t"
    spec_version := "1"
    spec_replaces := some "hive-operator.v0"
    owned := []
    clusterPermissions := [⟨[], "hive-operator"⟩]
    deployment_spec := ⟨⟨⟨[⟨"quay.io/openshift-hive/hive:v1"⟩]⟩⟩⟩ }

/-- Witness for `generate_csv_replaces_field`: assembling with previous
version `0` stamps `replaces = hive-operator.v0`. -/
theorem generate_csv_replaces_field_w :
    sampleCsvReplacing.spec_replaces = (some "0").map (fun p => descriptorName p) :=
  generate_csv_replaces_field [] [] sampleDeployDocs "1" (some "0") "t"
    sampleCsvReplacing (by rfl)

/-- A CRD directory listing with two regular files given out of
lexicographic order plus one subdirectory. -/
def sampleEntries : List DirEntry :=
  [⟨"b-crd.yaml", true, ⟨⟨"bcrd"⟩, ⟨⟨"BKind"⟩, [⟨"v1", ⟨⟨"bdesc"⟩⟩⟩]⟩⟩⟩,
   ⟨"a-crd.yaml", true, ⟨⟨"acrd"⟩, ⟨⟨"AKind"⟩, [⟨"v1", ⟨⟨"adesc"⟩⟩⟩]⟩⟩⟩,
   ⟨"sub", false, ⟨⟨""⟩, ⟨⟨""⟩, []⟩⟩⟩]

/-- The descriptor assembled from `sampleEntries` with no previous
version. -/
def sampleCsvOwned : CSVDoc :=
  { metadata_name := "hive-operator.v1"
    annotations_containerImage := "quay.io/openshift-hive/hive:v1"
    annotations_createdAt := "t"
    spec_version := "1"
    spec_replaces := none
    owned := [⟨"adesc", "AKind", "AKind", "acrd", "v1"⟩,
              ⟨"bdesc", "BKind", "BKind", "bcrd", "v1"⟩]
    clusterPermissions := [⟨["rule1"], "hive-operator"⟩]
    deployment_spec := ⟨⟨⟨[⟨"quay.io/openshift-hive/hive:v1"⟩]⟩⟩⟩ }

/-- Witness for `generate_csv_owned_order`: two CRD files and one
subdirectory yield exactly two owned entries. -/
theorem generate_csv_owned_order_w :
    sampleCsvOwned.owned.length =
      (sampleEntries.filter fun e => e.isFile).length :=
  (generate_csv_owned_order hiveCsvTemplate sampleEntries ["rule1"] sampleDeployDocs
    "1" none "t" sampleCsvOwned (by rfl)).1

/-! ### Theorems about the publish orchestration -/

/-- Claim C1: whenever the previous-version lookup for the target channel
returns exactly the newly resolved version string (plain string equality),
the run aborts fatally with the duplicate-version error and no stage with a
filesystem or remote side effect — image build/push, manifest assembly,
package generation, either destination publish — has run. -/
theorem main_run_duplicate_guard (channel_default hive_version : String)
    (update_channels : List String) (fetch : Except String PkgDoc)
    (dest1 dest2 : Except String Unit)
    (h : get_previous_version fetch (lookup_channel channel_default update_channels) =
      .ok (some hive_version)) :
    main_run channel_default hive_version update_channels fetch dest1 dest2 =
      (.error ("Version " ++ hive_version ++ " already exists upstream"), noEffects) := by
  simp [main_run, h]

/-- Witness for `main_run_duplicate_guard`: resolving version `1.2.3` when
channel `alpha` already points at `hive-operator.v1.2.3` aborts with no
stage run. -/
theorem main_run_duplicate_guard_w :
    main_run "alpha" "1.2.3" ["alpha"]
      (.ok ⟨some [⟨"alpha", "hive-operator.v1.2.3"⟩]⟩) (.ok ()) (.ok ()) =
      (.error ("Version " ++ "1.2.3" ++ " already exists upstream"), noEffects) :=
  main_run_duplicate_guard "alpha" "1.2.3" ["alpha"]
    (.ok ⟨some [⟨"alpha", "hive-operator.v1.2.3"⟩]⟩) (.ok ()) (.ok ()) (by rfl)

/-- Claim C9 counterexample: the two destination publishes are *not*
independent.  On a run where the first `open_pr` raises and the second
would succeed, the uncaught exception aborts `__main__` before the second
destination is ever attempted. -/
theorem main_run_independent_cx :
    (main_run "alpha" "2" ["alpha"] (.ok ⟨some [⟨"beta", "hive-operator.v1"⟩]⟩)
        (.error "failed to push branch to origin") (.ok ())).2.secondDestAttempted =
      false ∧
    isFatal (main_run "alpha" "2" ["alpha"] (.ok ⟨some [⟨"beta", "hive-operator.v1"⟩]⟩)
        (.error "failed to push branch to origin") (.ok ())).1 = true := by
  exact ⟨rfl, rfl⟩

/-- Claim C9 as amended: the two destinations are processed strictly in
sequence with no error isolation — the second destination is attempted
exactly when the first succeeded, a first-destination failure aborts the
whole run with that failure, and the run exits successfully exactly when
both destinations succeeded. -/
theorem main_run_sequential_dests (channel_default hive_version : String)
    (update_channels : List String) (fetch : Except String PkgDoc)
    (dest1 dest2 : Except String Unit) (pv : Option String)
    (hpv : get_previous_version fetch (lookup_channel channel_default update_channels) =
      .ok pv)
    (hne : pv ≠ some hive_version) :
    ((main_run channel_default hive_version update_channels fetch
        dest1 dest2).2.secondDestAttempted = true ↔ dest1 = .ok ()) ∧
    (∀ e, dest1 = .error e →
      (main_run channel_default hive_version update_channels fetch dest1 dest2).1 =
        .error e) ∧
    ((main_run channel_default hive_version update_channels fetch dest1 dest2).1 =
        .ok () ↔ dest1 = .ok () ∧ dest2 = .ok ()) := by
  cases dest1 with
  | error e =>
    refine ⟨by simp [main_run, hpv, hne], by simp [main_run, hpv, hne], ?_⟩
    simp [main_run, hpv, hne]
  | ok u =>
    cases u
    cases dest2 with
    | error e =>
      refine ⟨by simp [main_run, hpv, hne], by simp, ?_⟩
      simp [main_run, hpv, hne]
    | ok u2 =>
      cases u2
      exact ⟨by simp [main_run, hpv, hne], by simp, by simp [main_run, hpv, hne]⟩

/-- Witness for `main_run_sequential_dests`: with both destinations
succeeding, the second destination is attempted and the run succeeds. -/
theorem main_run_sequential_dests_w :
    ((main_run "alpha" "2" ["alpha"] (.ok ⟨some [⟨"beta", "hive-operator.v1"⟩]⟩)
        (.ok ()) (.ok ())).2.secondDestAttempted = true ↔ (.ok () : Except String Unit) = .ok ()) ∧
    (∀ e, (.ok () : Except String Unit) = .error e →
      (main_run "alpha" "2" ["alpha"] (.ok ⟨some [⟨"beta", "hive-operator.v1"⟩]⟩)
          (.ok ()) (.ok ())).1 = .error e) ∧
    ((main_run "alpha" "2" ["alpha"] (.ok ⟨some [⟨"beta", "hive-operator.v1"⟩]⟩)
        (.ok ()) (.ok ())).1 = .ok () ↔
      (.ok () : Except String Unit) = .ok () ∧ (.ok () : Except String Unit) = .ok ()) :=
  main_run_sequential_dests "alpha" "2" ["alpha"]
    (.ok ⟨some [⟨"beta", "hive-operator.v1"⟩]⟩) (.ok ()) (.ok ()) none (by rfl)
    (by simp)

/-- Claim C10: the single channel name `__main__` uses for the
previous-version lookup is the default channel whenever the default channel
occurs among the computed update channels, and otherwise the first element
of the update-channel list. -/
theorem lookup_channel_choice (channel_default : String)
    (update_channels : List String) :
    (update_channels.contains channel_default = true →
      lookup_channel channel_default update_channels = channel_default) ∧
    (∀ c rest, update_channels = c :: rest →
      update_channels.contains channel_default = false →
      lookup_channel channel_default update_channels = c) := by
  constructor
  · intro h
    have h2 : channel_default ∈ update_channels := by simpa using h
    simp [lookup_channel, h2]
  · intro c rest hu h
    subst hu
    have h2 : channel_default ∉ c :: rest := by simpa using h
    simp [lookup_channel, h2]

/-- Witness for `lookup_channel_choice`: with update channels
`[ocm-2.4]` and default `alpha`, the lookup channel is `ocm-2.4`. -/
theorem lookup_channel_choice_w :
    lookup_channel "alpha" ["ocm-2.4"] = "ocm-2.4" :=
  (lookup_channel_choice "alpha" ["ocm-2.4"]).2 "ocm-2.4" [] rfl (by decide)

end BundleGen
